import Mathlib

/-!
Verification development for the OffByOne-Bot application intake workflow
(`src/cogs/applications.py`, `src/schemas/models.py`, `src/database.py`).

The Python code is shallowly embedded: the SQLite store becomes an explicit
`Store` value, the cog's in-memory caches become a `CogState` value, and each
coroutine becomes a pure function from (state, inputs) to state.  ISO-8601
timestamp strings compare lexicographically exactly as their instants compare,
so `attempt_time` is modelled as an integer number of seconds with `<` standing
for the SQL string comparison.  External collaborators (Discord message
delivery, role resolution, `time.strptime`) are passed in as parameters.
-/

/- Constants, from the top of `applications.py`. -/

def APPLICATION_TIMEOUT : Int := 3600

def MINIMUM_ACCOUNT_AGE_DAYS : Nat := 7

def MAX_RATE_LIMIT_ATTEMPTS : Nat := 3

def RATE_LIMIT_WINDOW_SECONDS : Int := 3600

def CANCEL_KEYWORD : String := "cancel"

/- Role configuration, from `Applications.get_role_configs`:
   key, display name, ordered question list. -/

def roleConfigs : List (String × String × List String) :=
  [ ("game_server_owner", "Game Server Owner",
      [ "Are you the owner of the server?"
      , "What is your server name?"
      , "Link to your server"
      , "What game is your server for?" ])
  , ("content_creator", "Content Creator",
      [ "What type of content are you creating?"
      , "What is your content name?"
      , "How often do you post?"
      , "Link to your content channels/pages" ])
  , ("developer", "Developer",
      [ "How long have you been a developer?"
      , "What type of projects do you work?"
      , "Would you like the Bot to track your repos?"
      , "Link to sites you host your repos on" ]) ]

def getRoleQuestions (role_type : String) : List String :=
  match roleConfigs.find? (fun c => c.1 == role_type) with
  | some c => c.2.2
  | none => []

/-- Embeds `Applications._validate_role_type`: membership in the config keys. -/
def validateRoleType (role_type : String) : Bool :=
  (roleConfigs.find? (fun c => c.1 == role_type)).isSome

/- Python dict semantics for the `answers` mapping: assignment overwrites an
   existing key in place, otherwise appends, preserving insertion order. -/

def dictInsert (d : List (String × String)) (k v : String) :
    List (String × String) :=
  if d.any (fun p => p.1 == k) then
    d.map (fun p => if p.1 == k then (k, v) else p)
  else
    d ++ [(k, v)]

/-- Question-key format: the source builds keys as the word question, an
underscore, and the 1-based question number. -/
def questionKey (n : Nat) : String := "question_" ++ toString n

/- `ApplicationSession` (in-memory object). -/

structure ApplicationSession where
  user_id : Nat
  role_type : String
  questions : List String
  current_question : Nat
  answers : List (String × String)
  guild_id : Nat
  is_cancelled : Bool
  is_completed : Bool
deriving DecidableEq

/-- Embeds `ApplicationSession.add_answer`. -/
def ApplicationSession.addAnswer (s : ApplicationSession) (answer : String) :
    ApplicationSession :=
  { s with
    answers := dictInsert s.answers (questionKey (s.current_question + 1)) answer
    current_question := s.current_question + 1 }

/-- Embeds `ApplicationSession.is_finished`: `current_question >= len(questions)`. -/
def ApplicationSession.isFinished (s : ApplicationSession) : Bool :=
  s.questions.length ≤ s.current_question

/-- Embeds `ApplicationSession.get_current_question`. -/
def ApplicationSession.getCurrentQuestion (s : ApplicationSession) :
    Option String :=
  s.questions.get? s.current_question

/- Store rows, following the logical schema of `schemas/models.py`. -/

structure AppRow where
  id : Nat
  user_id : Nat
  guild_id : Nat
  role_type : String
  answers : List (String × String)
  status : String
  submitted_at : String
deriving DecidableEq

structure SessionRow where
  user_id : Nat
  guild_id : Nat
  role_type : String
  current_question : Nat
  answers : List (String × String)
deriving DecidableEq

structure RateLimitRow where
  user_id : Nat
  attempt_time : Int
deriving DecidableEq

structure RoleMappingRow where
  guild_id : Nat
  role_type : String
  role_id : Nat
deriving DecidableEq

structure Store where
  applications : List AppRow
  sessions : List SessionRow
  rate_limits : List RateLimitRow
  role_mappings : List RoleMappingRow
  approved_roles : List (Nat × String)
  next_app_id : Nat
deriving DecidableEq

/- The cog's in-memory caches (`Applications.__init__`). -/

structure CogState where
  pending_applications_users : List Nat
  active_sessions : List (Nat × ApplicationSession)
deriving DecidableEq

def lookupSession (l : List (Nat × ApplicationSession)) (uid : Nat) :
    Option ApplicationSession :=
  (l.find? (fun p => p.1 == uid)).map (fun p => p.2)

def setSession (l : List (Nat × ApplicationSession)) (uid : Nat)
    (s : ApplicationSession) : List (Nat × ApplicationSession) :=
  if l.any (fun p => p.1 == uid) then
    l.map (fun p => if p.1 == uid then (uid, s) else p)
  else
    l ++ [(uid, s)]

def removeSession (l : List (Nat × ApplicationSession)) (uid : Nat) :
    List (Nat × ApplicationSession) :=
  l.filter (fun p => !(p.1 == uid))

/- Rate limiter (`DatabaseManager`). -/

/-- Embeds `DatabaseManager.cleanup_old_rate_limits`:
`DELETE FROM application_rate_limits WHERE attempt_time < cutoff`. -/
def cleanupOldRateLimits (now : Int) (store : Store) : Store :=
  { store with
    rate_limits := store.rate_limits.filter
      (fun r => !(decide (r.attempt_time < now - RATE_LIMIT_WINDOW_SECONDS))) }

/-- Embeds `DatabaseManager.get_rate_limit_attempts`:
`SELECT COUNT(*) ... WHERE user_id = ? AND attempt_time < cutoff`.
Note the comparison direction: the source counts rows *before* the cutoff. -/
def getRateLimitAttempts (now : Int) (store : Store) (uid : Nat) : Nat :=
  (store.rate_limits.filter
    (fun r => r.user_id == uid &&
      decide (r.attempt_time < now - RATE_LIMIT_WINDOW_SECONDS))).length

/-- Embeds `DatabaseManager.add_rate_limit_attempt`. -/
def addRateLimitAttempt (now : Int) (store : Store) (uid : Nat) : Store :=
  { store with rate_limits := store.rate_limits ++ [⟨uid, now⟩] }

/-- Embeds `Applications._check_rate_limit` (semantics of the coroutine when awaited). -/
def checkRateLimit (now : Int) (store : Store) (uid : Nat) : Bool × Store :=
  let store := cleanupOldRateLimits now store
  let attempts := getRateLimitAttempts now store uid
  if MAX_RATE_LIMIT_ATTEMPTS ≤ attempts then
    (false, store)
  else
    (true, addRateLimitAttempt now store uid)

/- Inbound chat events, as far as `Applications.on_message` inspects them. -/

structure Message where
  author_id : Nat
  author_is_bot : Bool
  is_dm : Bool
  content : String
deriving DecidableEq

/-- Embeds `ApplicationSession.__init__` as invoked by
`Applications._create_application_session`: questions come from the role
config, the index starts at 0 and the answers mapping starts empty. -/
def createApplicationSession (uid : Nat) (role_type : String) (gid : Nat) :
    ApplicationSession :=
  { user_id := uid
    role_type := role_type
    questions := getRoleQuestions role_type
    current_question := 0
    answers := []
    guild_id := gid
    is_cancelled := false
    is_completed := false }

/-- Embeds `ApplicationSession.save_to_database`: `INSERT OR REPLACE` keyed on
`user_id`. -/
def saveSessionToStore (s : ApplicationSession) (store : Store) : Store :=
  { store with
    sessions := store.sessions.filter (fun r => !(r.user_id == s.user_id)) ++
      [⟨s.user_id, s.guild_id, s.role_type, s.current_question, s.answers⟩] }

/-- Embeds `ApplicationSession.delete_from_database`. -/
def deleteSessionFromStore (uid : Nat) (store : Store) : Store :=
  { store with
    sessions := store.sessions.filter (fun r => !(r.user_id == uid)) }

/- SQL parameter binding: sqlite3 raises `ProgrammingError` when the number of
   supplied parameters differs from the number of `?` placeholders in the
   statement, applying nothing. -/

def sqlBindOk (placeholders : Nat) (params : List Nat) : Bool :=
  params.length == placeholders

/-- The UPDATE statement of `Applications._cancel_application` contains exactly
one `?` placeholder (`WHERE user_id = ? AND status = 'pending'`). -/
def cancelUpdatePlaceholderCount : Nat := 1

/-- The parameter tuple bound to that statement: `(user.id, session.guild_id)`. -/
def cancelUpdateParams (uid gid : Nat) : List Nat := [uid, gid]

/-- Embeds `Applications._cancel_application`.  The whole body runs inside one
`try`/`except` whose handler only logs, so when the first `db.execute` raises
(the binding-count mismatch) every later effect is skipped and the state is
returned unchanged. -/
def cancelApplication (uid : Nat) (session : ApplicationSession)
    (cog : CogState) (store : Store) : CogState × Store :=
  if sqlBindOk cancelUpdatePlaceholderCount
      (cancelUpdateParams uid session.guild_id) then
    let store :=
      { store with
        applications := store.applications.map
          (fun a =>
            if a.user_id == uid && a.status == "pending" then
              { a with status := "cancelled" }
            else a) }
    let store := deleteSessionFromStore uid store
    let cog :=
      { cog with
        active_sessions := removeSession cog.active_sessions uid
        pending_applications_users :=
          cog.pending_applications_users.filter (fun u => !(u == uid)) }
    (cog, store)
  else
    (cog, store)

/-- Embeds `Applications._complete_application`: updates the matching pending
application rows with the serialized answers and status `completed`, then
removes the user from both in-memory caches.  The stored session row is never
deleted here. -/
def completeApplication (uid : Nat) (session : ApplicationSession)
    (cog : CogState) (store : Store) : CogState × Store :=
  let store :=
    { store with
      applications := store.applications.map
        (fun a =>
          if a.user_id == uid && a.guild_id == session.guild_id &&
              a.status == "pending" then
            { a with answers := session.answers, status := "completed" }
          else a) }
  let cog :=
    { cog with
      active_sessions := removeSession cog.active_sessions uid
      pending_applications_users :=
        cog.pending_applications_users.filter (fun u => !(u == uid)) }
  (cog, store)

/-- Python `str.strip()`: drop leading and trailing whitespace. -/
def pyStrip (s : String) : String :=
  ⟨((s.data.dropWhile Char.isWhitespace).reverse.dropWhile
      Char.isWhitespace).reverse⟩

/-- Python `str.lower()` on the ASCII range the cancel keyword lives in. -/
def pyLower (s : String) : String :=
  ⟨s.data.map Char.toLower⟩

/-- Embeds `Applications._process_dm_response`.  `content = message.content.strip()`
is written out as `pyStrip msg.content` at each use; the dict-stored session
object is mutated in place by `add_answer`, which here becomes updating the
cache entry before the finished check. -/
def processDmResponse (cog : CogState) (store : Store) (msg : Message) :
    CogState × Store :=
  match lookupSession cog.active_sessions msg.author_id with
  | none => (cog, store)
  | some session =>
    if pyLower (pyStrip msg.content) == CANCEL_KEYWORD then
      cancelApplication msg.author_id session cog store
    else
      if !(session.addAnswer (pyStrip msg.content)).isFinished then
        ({ cog with
            active_sessions := setSession cog.active_sessions msg.author_id
              (session.addAnswer (pyStrip msg.content)) }, store)
      else
        completeApplication msg.author_id
          (session.addAnswer (pyStrip msg.content))
          { cog with
            active_sessions := setSession cog.active_sessions msg.author_id
              (session.addAnswer (pyStrip msg.content)) }
          store

/-- Embeds `Applications.on_message`: ignore bot authors, ignore non-DM channels, and
only route DMs from users with an active session. -/
def onMessage (cog : CogState) (store : Store) (msg : Message) :
    CogState × Store :=
  if msg.author_is_bot then (cog, store)
  else if !msg.is_dm then (cog, store)
  else if (lookupSession cog.active_sessions msg.author_id).isSome then
    processDmResponse cog store msg
  else (cog, store)

def runMessages (cog : CogState) (store : Store) (msgs : List Message) :
    CogState × Store :=
  msgs.foldl (fun st m => processDmResponse st.1 st.2 m) (cog, store)

/- The `/apply` slash command. -/

inductive ApplyResult where
  | invalidRoleType
  | accountTooNew
  | alreadyPending
  | started
  | startedDmFailed
deriving DecidableEq

/-- Context of an `/apply` invocation: the invoking user, the guild the command
ran in, the account age Discord reports for the user, whether the follow-up DM
can be delivered, and the `CURRENT_TIMESTAMP` string the store would fill in
for `submitted_at`. -/
structure ApplyCtx where
  user_id : Nat
  guild_id : Nat
  account_age_days : Nat
  dm_ok : Bool
  submitted_at : String
deriving DecidableEq

/-- The duplicate-pending store check in `Applications.apply` (and in
`_validate_application_prerequisites`):
`SELECT id FROM applications WHERE user_id = ? AND status = 'pending'` —
note there is no `guild_id` filter. -/
def hasPendingApplicationForUser (store : Store) (uid : Nat) : Bool :=
  store.applications.any (fun a => a.user_id == uid && a.status == "pending")

/-- Embeds `Applications.apply`.  The rate-limit step is absent from the branches on
purpose: the source tests `if not self._check_rate_limit(user_id)` without
awaiting the coroutine, so the condition is the truthiness of a coroutine
object, which is never false — the branch is dead and no attempt row is ever
inserted on this path. -/
def applyCmd (ctx : ApplyCtx) (role_type : String) (cog : CogState)
    (store : Store) : ApplyResult × CogState × Store :=
  if !validateRoleType role_type then
    (.invalidRoleType, cog, store)
  else if ctx.account_age_days < MINIMUM_ACCOUNT_AGE_DAYS then
    (.accountTooNew, cog, store)
  else if ctx.user_id ∈ cog.pending_applications_users then
    (.alreadyPending, cog, store)
  else if hasPendingApplicationForUser store ctx.user_id then
    (.alreadyPending,
      { cog with
        pending_applications_users :=
          ctx.user_id :: cog.pending_applications_users },
      store)
  else
    let row : AppRow :=
      { id := store.next_app_id
        user_id := ctx.user_id
        guild_id := ctx.guild_id
        role_type := role_type
        answers := []
        status := "pending"
        submitted_at := ctx.submitted_at }
    let store :=
      { store with
        applications := store.applications ++ [row]
        next_app_id := store.next_app_id + 1 }
    let cog :=
      { cog with
        pending_applications_users :=
          ctx.user_id :: cog.pending_applications_users }
    let session := createApplicationSession ctx.user_id role_type ctx.guild_id
    let cog :=
      { cog with
        active_sessions := setSession cog.active_sessions ctx.user_id session }
    let store := saveSessionToStore session store
    if ctx.dm_ok then
      (.started, cog, store)
    else
      (.startedDmFailed,
        { cog with active_sessions := removeSession cog.active_sessions ctx.user_id },
        store)

/- Expiry sweeper (`Applications.cleanup_expired_applications`). -/

/-- Per-row action of the sweep: only `pending` rows are examined; a row whose
timestamp fails to parse raises `ValueError`, which is caught, logged and the
row is skipped; a parsed row strictly older than `APPLICATION_TIMEOUT` seconds
is marked `expired`. -/
def expireRow (parseTs : String → Option Int) (now : Int) (a : AppRow) :
    AppRow :=
  if a.status == "pending" then
    match parseTs a.submitted_at with
    | some t =>
        if now - t > APPLICATION_TIMEOUT then { a with status := "expired" }
        else a
    | none => a
  else a

/-- The user ids collected in `expired_user_ids_processed` during the sweep. -/
def expiredUserIds (parseTs : String → Option Int) (now : Int)
    (store : Store) : List Nat :=
  (store.applications.filter
    (fun a =>
      a.status == "pending" &&
        match parseTs a.submitted_at with
        | some t => decide (now - t > APPLICATION_TIMEOUT)
        | none => false)).map (fun a => a.user_id)

/-- One sweep of `cleanup_expired_applications`: `time.strptime`/`time.mktime`
are abstracted as the `parseTs` parameter. -/
def cleanupExpiredApplications (parseTs : String → Option Int) (now : Int)
    (cog : CogState) (store : Store) : CogState × Store :=
  ( { cog with
      pending_applications_users := cog.pending_applications_users.filter
        (fun u => !(u ∈ expiredUserIds parseTs now store)) }
  , { store with
      applications := store.applications.map (expireRow parseTs now) } )

/- Decision handler (`Applications.accept_application`). -/

inductive AcceptResult where
  | notAuthorized
  | noApplication
  | noRoleMapping
  | approved (role_id : Nat)
deriving DecidableEq

structure AcceptCtx where
  guild_id : Nat
  moderator_is_mod : Bool
deriving DecidableEq

/-- Embeds `_get_application_by_user_id`: despite its docstring, the query selects the
`completed` application for `(user_id, guild_id)`. -/
def getApplicationByUserId (store : Store) (uid gid : Nat) : Option AppRow :=
  store.applications.find?
    (fun a => a.user_id == uid && a.guild_id == gid && a.status == "completed")

/-- Embeds `Applications._get_role_for_type`: the `role_mappings` lookup followed by
resolving the stored role id against the live guild (`resolveRole`). -/
def getRoleForType (resolveRole : Nat → Option Nat) (store : Store)
    (gid : Nat) (role_type : String) : Option Nat :=
  match store.role_mappings.find?
      (fun m => m.guild_id == gid && m.role_type == role_type) with
  | some m => resolveRole m.role_id
  | none => none

/-- Embeds `Applications.accept_application`.  `_has_mod_permissions` is external
Discord data and enters as `ctx.moderator_is_mod`; the Discord role grant is
reported through the `approved` result. -/
def acceptApplication (resolveRole : Nat → Option Nat) (ctx : AcceptCtx)
    (target_uid : Nat) (cog : CogState) (store : Store) :
    AcceptResult × CogState × Store :=
  if !ctx.moderator_is_mod then
    (.notAuthorized, cog, store)
  else
    match getApplicationByUserId store target_uid ctx.guild_id with
    | none => (.noApplication, cog, store)
    | some app =>
      match getRoleForType resolveRole store ctx.guild_id app.role_type with
      | none => (.noRoleMapping, cog, store)
      | some rid =>
        let store :=
          { store with
            applications := store.applications.map
              (fun a => if a.id == app.id then { a with status := "approved" } else a)
            approved_roles :=
              store.approved_roles.filter
                (fun p => !(p.1 == target_uid && p.2 == app.role_type)) ++
              [(target_uid, app.role_type)] }
        let cog :=
          { cog with
            pending_applications_users :=
              cog.pending_applications_users.filter (fun u => !(u == target_uid)) }
        (.approved rid, cog, store)

/- Startup cache rebuild (`Applications.cog_load`), modelled at the
   granularity of table names because the relevant failure is a table-name
   mismatch: `init_db` (src/database.py) executes a fixed list of CREATE
   statements, and `cog_load` queries a sessions table by yet another name. -/

/-- The table names `init_db` actually creates (one per executed CREATE
statement of `schemas/models.py`).  `CREAT_SESSIONS_TABLE` and
`CREATE_RATE_LIMIT_TABLE` exist in `schemas/models.py` but are never executed
by `init_db`. -/
def initDbTables : List String :=
  [ "applications", "approved_roles", "rep_hooks", "channel_hooks"
  , "user_toggles", "server_configs", "application_channels", "role_mappings" ]

/-- The sessions table name in `CREAT_SESSIONS_TABLE` of `schemas/models.py`. -/
def sessionsTableName : String := "application_sessions"

/-- The table name queried by `Applications.cog_load`:
`SELECT user_id FROM applications_sessions`. -/
def cogLoadSessionsQueryTable : String := "applications_sessions"

structure NamedDb where
  tables : List String
  sessionUserIds : List Nat
  pendingUserIds : List Nat
deriving DecidableEq

inductive CogLoadOutcome where
  /-- Normal return of `cog_load`; these are the rebuilt caches. -/
  | ok (activeSessionUsers : List Nat) (pendingUsers : List Nat)
  /-- The sessions query raised `OperationalError` (no such table) and the
  `except` handler itself raised `NameError`: its log message interpolates
  `user_id`, which is only bound inside the loop that never ran.  `cog_load`
  aborts before the pending-users loop. -/
  | nameErrorRaised
deriving DecidableEq

/-- Embeds `Applications.cog_load`.  `ApplicationSession.from_database` reads from
`application_sessions` and returns `None` on its own caught errors, so when
that table is missing the loop would populate nothing but continue. -/
def cogLoad (db : NamedDb) : CogLoadOutcome :=
  if cogLoadSessionsQueryTable ∈ db.tables then
    let active := if sessionsTableName ∈ db.tables then db.sessionUserIds else []
    .ok active db.pendingUserIds
  else
    .nameErrorRaised

/-! ## Theorems -/

/-- Counter written after the spec's words for comparison: the number of a
user's recorded attempts whose `attempt_time` lies within the trailing
1-hour window ending at `now`. -/
def attemptsWithinWindow (now : Int) (store : Store) (uid : Nat) : Nat :=
  (store.rate_limits.filter
    (fun r => r.user_id == uid &&
      decide (now - RATE_LIMIT_WINDOW_SECONDS ≤ r.attempt_time) &&
      decide (r.attempt_time ≤ now))).length

theorem getRateLimitAttempts_after_cleanup (now : Int) (store : Store)
    (uid : Nat) :
    getRateLimitAttempts now (cleanupOldRateLimits now store) uid = 0 := by
  unfold getRateLimitAttempts cleanupOldRateLimits
  rw [List.length_eq_zero, List.filter_eq_nil_iff]
  intro a ha
  rw [List.mem_filter] at ha
  have h2 := ha.2
  rw [Bool.not_eq_true', decide_eq_false_iff_not] at h2
  simp [h2]

def c1Store : Store := ⟨[], [], [⟨1, 9000⟩, ⟨1, 9100⟩, ⟨1, 9200⟩], [], [], 1⟩

def c1Ctx : ApplyCtx := ⟨1, 5, 30, true, "2025-01-01 00:00:00"⟩

/-- C1: the claim fails on the code.  User 1 has exactly
`MAX_RATE_LIMIT_ATTEMPTS` attempts inside the trailing hour at `now = 10000`,
yet `_check_rate_limit` still allows (its count compares `attempt_time` with
`<` against the cutoff, counting only rows `cleanup_old_rate_limits` just
deleted, so the count is always 0), and `apply` — which calls the check
without awaiting it — starts the application without recording any attempt. -/
theorem rateLimiter_never_denies_code_bug :
    attemptsWithinWindow 10000 c1Store 1 = MAX_RATE_LIMIT_ATTEMPTS ∧
    (checkRateLimit 10000 c1Store 1).1 = true ∧
    (∀ (now : Int) (store : Store) (uid : Nat),
      getRateLimitAttempts now (cleanupOldRateLimits now store) uid = 0) ∧
    (applyCmd c1Ctx "developer" ⟨[], []⟩ c1Store).1 = ApplyResult.started ∧
    (applyCmd c1Ctx "developer" ⟨[], []⟩ c1Store).2.2.rate_limits =
      c1Store.rate_limits :=
  ⟨by decide, by decide, getRateLimitAttempts_after_cleanup, by decide, by decide⟩

def c2Session : ApplicationSession :=
  { createApplicationSession 7 "developer" 1 with
    current_question := 2
    answers := [(questionKey 1, "a1"), (questionKey 2, "a2")] }

def c2Cog : CogState := ⟨[7], [(7, c2Session)]⟩

def c2Store : Store :=
  ⟨[⟨1, 7, 1, "developer", [], "pending", "2025-01-01 00:00:00"⟩],
   [⟨7, 1, "developer", 0, []⟩], [], [], [], 2⟩

def c2Msg : Message := ⟨7, false, true, "  CANCEL "⟩

/-- C2: the claim fails on the code.  User 7 is mid-session (question index 2)
and sends the cancel keyword (upper case, surrounded by whitespace).  The
message is recognised as a cancellation, but `_cancel_application`'s UPDATE
binds two parameters to a one-placeholder statement, so aiosqlite raises
`ProgrammingError`; the surrounding handler swallows it and nothing changes:
the application stays `pending` and the session stays in memory and in the
store. -/
theorem cancelKeyword_changes_nothing_code_bug :
    pyLower (pyStrip c2Msg.content) = CANCEL_KEYWORD ∧
    sqlBindOk cancelUpdatePlaceholderCount (cancelUpdateParams 7 1) = false ∧
    processDmResponse c2Cog c2Store c2Msg = (c2Cog, c2Store) ∧
    (processDmResponse c2Cog c2Store c2Msg).2.applications.map
      (fun a => a.status) = ["pending"] := by decide

def c4Db : NamedDb := ⟨initDbTables, [], [42]⟩

/-- C4: the claim fails on the code.  Start from the tables `init_db` creates
(neither sessions-table spelling is among them — `init_db` never executes
`CREAT_SESSIONS_TABLE`) with user 42 holding a `pending` application.
`cog_load`'s sessions query names `applications_sessions`, which does not
exist, and the exception handler's log message reads the unbound loop
variable `user_id`, so `cog_load` aborts with `NameError` before the
pending-users cache is populated: neither cache is rebuilt. -/
theorem cogLoad_cannot_rebuild_caches_code_bug :
    cogLoad c4Db = CogLoadOutcome.nameErrorRaised ∧
    cogLoadSessionsQueryTable ∉ initDbTables ∧
    sessionsTableName ∉ initDbTables ∧
    ¬ cogLoadSessionsQueryTable = sessionsTableName := by decide

/-- C10: a bot-authored message, a non-DM message, or a DM from a user with
no active session leaves the in-memory caches and the store unchanged. -/
theorem onMessage_unrouted_changes_nothing
    (cog : CogState) (store : Store) (msg : Message)
    (h : msg.author_is_bot = true ∨ msg.is_dm = false ∨
      lookupSession cog.active_sessions msg.author_id = none) :
    onMessage cog store msg = (cog, store) := by
  unfold onMessage
  rcases h with h | h | h
  · simp [h]
  · by_cases hb : msg.author_is_bot <;> simp [hb, h]
  · by_cases hb : msg.author_is_bot <;> by_cases hd : msg.is_dm <;>
      simp [hb, hd, h]

/-- Witness for C10 at a concrete bot-authored message. -/
theorem onMessage_unrouted_changes_nothing_witness :
    onMessage ⟨[], []⟩ ⟨[], [], [], [], [], 1⟩ ⟨3, true, true, "hi"⟩ =
      (⟨[], []⟩, ⟨[], [], [], [], [], 1⟩) :=
  onMessage_unrouted_changes_nothing _ _ _ (Or.inl rfl)

/-- C5: with a valid role type and a sufficiently old account, a start attempt
by a user who already has a `pending` application — recorded either in the
in-memory pending set or, with a cold cache, only in the store — is rejected
as already-pending, and neither a new application row, nor a session row, nor
an in-memory session is created. -/
theorem applyCmd_rejects_already_pending
    (ctx : ApplyCtx) (role_type : String) (cog : CogState) (store : Store)
    (hrt : validateRoleType role_type = true)
    (hage : MINIMUM_ACCOUNT_AGE_DAYS ≤ ctx.account_age_days)
    (hpend : ctx.user_id ∈ cog.pending_applications_users ∨
      hasPendingApplicationForUser store ctx.user_id = true) :
    (applyCmd ctx role_type cog store).1 = ApplyResult.alreadyPending ∧
    (applyCmd ctx role_type cog store).2.2 = store ∧
    (applyCmd ctx role_type cog store).2.1.active_sessions =
      cog.active_sessions := by
  unfold applyCmd
  rcases hpend with h | h
  · simp [hrt, Nat.not_lt.mpr hage, h]
  · by_cases hmem : ctx.user_id ∈ cog.pending_applications_users
    · simp [hrt, Nat.not_lt.mpr hage, hmem]
    · simp [hrt, Nat.not_lt.mpr hage, hmem, h]

def c5Store : Store :=
  ⟨[⟨1, 7, 1, "developer", [], "pending", "2025-01-01 00:00:00"⟩],
   [], [], [], [], 2⟩

def c5Ctx : ApplyCtx := ⟨7, 1, 30, true, "2025-01-01 00:10:00"⟩

/-- Witness for C5: cold cache (empty pending set), pending row only in the
store. -/
theorem applyCmd_rejects_already_pending_witness :
    (applyCmd c5Ctx "developer" ⟨[], []⟩ c5Store).1 =
      ApplyResult.alreadyPending ∧
    (applyCmd c5Ctx "developer" ⟨[], []⟩ c5Store).2.2 = c5Store ∧
    (applyCmd c5Ctx "developer" ⟨[], []⟩ c5Store).2.1.active_sessions =
      (⟨[], []⟩ : CogState).active_sessions :=
  applyCmd_rejects_already_pending c5Ctx "developer" ⟨[], []⟩ c5Store
    (by decide) (by decide) (Or.inr (by decide))

/-- C9: the store-level duplicate check filters on `user_id` alone — its SQL
has no `guild_id` condition — so a user with a `pending` application row in
any guild is rejected as already-pending by an `/apply` issued in any guild,
whatever the in-memory cache contains. -/
theorem applyCmd_pending_check_ignores_guild
    (ctx : ApplyCtx) (role_type : String) (cog : CogState) (store : Store)
    (hrt : validateRoleType role_type = true)
    (hage : MINIMUM_ACCOUNT_AGE_DAYS ≤ ctx.account_age_days)
    (a : AppRow) (ha : a ∈ store.applications)
    (hau : a.user_id = ctx.user_id) (has : a.status = "pending") :
    (applyCmd ctx role_type cog store).1 = ApplyResult.alreadyPending ∧
    (applyCmd ctx role_type cog store).2.2 = store := by
  have hpend : hasPendingApplicationForUser store ctx.user_id = true := by
    unfold hasPendingApplicationForUser
    rw [List.any_eq_true]
    exact ⟨a, ha, by simp [hau, has]⟩
  unfold applyCmd
  by_cases hmem : ctx.user_id ∈ cog.pending_applications_users
  · simp [hrt, Nat.not_lt.mpr hage, hmem]
  · simp [hrt, Nat.not_lt.mpr hage, hmem, hpend]

def c9Store : Store :=
  ⟨[⟨1, 8, 100, "content_creator", [], "pending", "2025-01-01 00:00:00"⟩],
   [], [], [], [], 2⟩

def c9Ctx : ApplyCtx := ⟨8, 200, 30, true, "2025-01-01 00:10:00"⟩

def c9Row : AppRow := ⟨1, 8, 100, "content_creator", [], "pending",
  "2025-01-01 00:00:00"⟩

/-- Witness for C9: the pending row lives in guild 100, the new `/apply` runs
in guild 200, and it is still rejected. -/
theorem applyCmd_pending_check_ignores_guild_witness :
    (applyCmd c9Ctx "developer" ⟨[], []⟩ c9Store).1 =
      ApplyResult.alreadyPending ∧
    (applyCmd c9Ctx "developer" ⟨[], []⟩ c9Store).2.2 = c9Store :=
  applyCmd_pending_check_ignores_guild c9Ctx "developer" ⟨[], []⟩ c9Store
    (by decide) (by decide) c9Row (by decide) rfl rfl

/-- C3: one sweep rewrites every application row through `expireRow`; a
`pending` row whose timestamp parses to more than `APPLICATION_TIMEOUT`
seconds before `now` becomes `expired` and its user leaves the pending set; a
`pending` row within the timeout (e.g. 59 minutes old) is untouched; a row
whose timestamp does not parse is skipped while the rest of the sweep still
runs. -/
theorem cleanupExpired_marks_old_skips_recent_and_malformed
    (parseTs : String → Option Int) (now : Int)
    (cog : CogState) (store : Store) (a : AppRow)
    (ha : a ∈ store.applications) (hp : a.status = "pending") :
    ((cleanupExpiredApplications parseTs now cog store).2.applications =
      store.applications.map (expireRow parseTs now)) ∧
    (∀ t, parseTs a.submitted_at = some t → now - t > APPLICATION_TIMEOUT →
      expireRow parseTs now a = { a with status := "expired" } ∧
      a.user_id ∉
        (cleanupExpiredApplications parseTs now cog
          store).1.pending_applications_users) ∧
    (∀ t, parseTs a.submitted_at = some t → now - t ≤ APPLICATION_TIMEOUT →
      expireRow parseTs now a = a) ∧
    (parseTs a.submitted_at = none → expireRow parseTs now a = a) := by
  refine ⟨rfl, ?_, ?_, ?_⟩
  · intro t hpt hold
    constructor
    · unfold expireRow
      simp [hp, hpt, hold]
    · intro hmem
      unfold cleanupExpiredApplications at hmem
      simp only [List.mem_filter] at hmem
      have hexp : a.user_id ∈ expiredUserIds parseTs now store := by
        unfold expiredUserIds
        exact List.mem_map.mpr
          ⟨a, List.mem_filter.mpr ⟨ha, by simp [hp, hpt, hold]⟩, rfl⟩
      simp [hexp] at hmem
  · intro t hpt hrecent
    unfold expireRow
    simp [hp, hpt, not_lt.mpr hrecent]
  · intro hnone
    unfold expireRow
    simp [hp, hnone]

/-- A concrete stand-in for `time.strptime`/`time.mktime` used in the C3
witness. -/
def c3Parse : String → Option Int := fun s =>
  if s = "2025-01-01 00:00:00" then some 1000
  else if s = "2025-01-01 00:24:20" then some 2460
  else none

def c3Old : AppRow := ⟨1, 7, 1, "developer", [], "pending",
  "2025-01-01 00:00:00"⟩

def c3Recent : AppRow := ⟨2, 8, 1, "developer", [], "pending",
  "2025-01-01 00:24:20"⟩

def c3Bad : AppRow := ⟨3, 9, 1, "developer", [], "pending", "garbage"⟩

def c3Store : Store := ⟨[c3Old, c3Recent, c3Bad], [], [], [], [], 4⟩

def c3Cog : CogState := ⟨[7, 8, 9], []⟩

/-- Witness for C3 at `now = 6000`: row 1 is 5000 seconds old (expired, user 7
cleared), row 2 is 3540 seconds (59 minutes) old, row 3 does not parse. -/
theorem cleanupExpired_witness :
    c3Old ∈ c3Store.applications ∧ c3Old.status = "pending" ∧
    (expireRow c3Parse 6000 c3Old = { c3Old with status := "expired" } ∧
      c3Old.user_id ∉
        (cleanupExpiredApplications c3Parse 6000 c3Cog
          c3Store).1.pending_applications_users) :=
  ⟨by decide, rfl,
    (cleanupExpired_marks_old_skips_recent_and_malformed c3Parse 6000 c3Cog
      c3Store c3Old (by decide) rfl).2.1 1000 (by decide) (by decide)⟩

/-- C8: with moderator permission and a `completed` application on file, a
missing `RoleMapping` for the application's role type blocks the decision
with `noRoleMapping` and changes nothing — the row stays `completed`, no role
is granted, no approved-role record appears — and once a mapping that
resolves to a live guild role is appended, the same command approves the
application. -/
theorem accept_without_mapping_blocks_then_retry_succeeds
    (resolveRole : Nat → Option Nat) (ctx : AcceptCtx) (uid : Nat)
    (cog : CogState) (store : Store) (app : AppRow)
    (hmod : ctx.moderator_is_mod = true)
    (happ : getApplicationByUserId store uid ctx.guild_id = some app)
    (hnomap : store.role_mappings.find?
      (fun m => m.guild_id == ctx.guild_id && m.role_type == app.role_type) =
        none) :
    acceptApplication resolveRole ctx uid cog store =
      (AcceptResult.noRoleMapping, cog, store) ∧
    (∀ rid r, resolveRole rid = some r →
      (acceptApplication resolveRole ctx uid cog
        { store with role_mappings :=
            store.role_mappings ++ [⟨ctx.guild_id, app.role_type, rid⟩] }).1 =
        AcceptResult.approved r ∧
      (acceptApplication resolveRole ctx uid cog
        { store with role_mappings :=
            store.role_mappings ++ [⟨ctx.guild_id, app.role_type, rid⟩] }).2.2.applications =
        store.applications.map
          (fun a => if a.id == app.id then { a with status := "approved" }
            else a)) := by
  constructor
  · unfold acceptApplication getRoleForType
    simp [hmod, happ, hnomap]
  · intro rid r hres
    have happ' : getApplicationByUserId
        { store with role_mappings :=
            store.role_mappings ++ [⟨ctx.guild_id, app.role_type, rid⟩] }
        uid ctx.guild_id = some app := happ
    have hfind : ({ store with role_mappings :=
        store.role_mappings ++
          [⟨ctx.guild_id, app.role_type, rid⟩] } : Store).role_mappings.find?
        (fun m => m.guild_id == ctx.guild_id && m.role_type == app.role_type) =
        some ⟨ctx.guild_id, app.role_type, rid⟩ := by
      show (store.role_mappings ++
        [(⟨ctx.guild_id, app.role_type, rid⟩ : RoleMappingRow)]).find? _ = _
      rw [List.find?_append, hnomap]
      simp
    unfold acceptApplication getRoleForType
    simp [hmod, happ', hfind, hres]

def c8App : AppRow := ⟨5, 7, 1, "developer",
  [(questionKey 1, "a1"), (questionKey 2, "a2"), (questionKey 3, "a3"),
   (questionKey 4, "a4")], "completed", "2025-01-01 00:00:00"⟩

def c8Store : Store := ⟨[c8App], [], [], [], [], 6⟩

def c8Resolve : Nat → Option Nat := fun rid =>
  if rid = 900 then some 900 else none

/-- Witness for C8: no mapping for `(guild 1, developer)` blocks the
approval and leaves the store intact; appending that mapping (role 900) makes
the retry approve the row. -/
theorem accept_without_mapping_witness :
    acceptApplication c8Resolve ⟨1, true⟩ 7 ⟨[], []⟩ c8Store =
      (AcceptResult.noRoleMapping, ⟨[], []⟩, c8Store) ∧
    (acceptApplication c8Resolve ⟨1, true⟩ 7 ⟨[], []⟩
      { c8Store with role_mappings :=
          c8Store.role_mappings ++ [⟨1, c8App.role_type, 900⟩] }).1 =
      AcceptResult.approved 900 ∧
    (acceptApplication c8Resolve ⟨1, true⟩ 7 ⟨[], []⟩
      { c8Store with role_mappings :=
          c8Store.role_mappings ++ [⟨1, c8App.role_type, 900⟩] }).2.2.applications =
      c8Store.applications.map
        (fun a => if a.id == c8App.id then { a with status := "approved" }
          else a) :=
  have h := accept_without_mapping_blocks_then_retry_succeeds c8Resolve
    ⟨1, true⟩ 7 ⟨[], []⟩ c8Store c8App rfl (by decide) (by decide)
  ⟨h.1, (h.2 900 900 (by decide)).1, (h.2 900 900 (by decide)).2⟩

theorem find?_map_set_of_any (l : List (Nat × ApplicationSession)) (uid : Nat)
    (s : ApplicationSession) (h : l.any (fun p => p.1 == uid) = true) :
    (l.map (fun p => if p.1 == uid then (uid, s) else p)).find?
      (fun p => p.1 == uid) = some (uid, s) := by
  induction l with
  | nil => simp at h
  | cons hd tl ih =>
    rw [List.map_cons]
    by_cases hh : (hd.1 == uid) = true
    · rw [if_pos hh, List.find?_cons]
      simp only [beq_self_eq_true]
    · have hh' : (hd.1 == uid) = false := by simpa using hh
      rw [if_neg hh, List.find?_cons]
      simp only [hh']
      rw [List.any_cons] at h
      simp only [Bool.or_eq_true] at h
      rcases h with h | h
      · exact absurd h hh
      · exact ih h

theorem find?_append_single_of_not_any (l : List (Nat × ApplicationSession))
    (uid : Nat) (s : ApplicationSession)
    (h : l.any (fun p => p.1 == uid) = false) :
    (l ++ [(uid, s)]).find? (fun p => p.1 == uid) = some (uid, s) := by
  induction l with
  | nil => simp
  | cons hd tl ih =>
    rw [List.any_cons] at h
    rcases Bool.or_eq_false_iff.mp h with ⟨h1, h2⟩
    simp [h1, ih h2]

theorem lookupSession_setSession_self (l : List (Nat × ApplicationSession))
    (uid : Nat) (s : ApplicationSession) :
    lookupSession (setSession l uid s) uid = some s := by
  unfold lookupSession setSession
  by_cases h : l.any (fun p => p.1 == uid)
  · rw [if_pos h, find?_map_set_of_any l uid s h]
    rfl
  · rw [if_neg h,
      find?_append_single_of_not_any l uid s (Bool.eq_false_iff.mpr h)]
    rfl

theorem lookupSession_removeSession_self (l : List (Nat × ApplicationSession))
    (uid : Nat) : lookupSession (removeSession l uid) uid = none := by
  unfold lookupSession removeSession
  rw [List.find?_eq_none.mpr]
  · rfl
  · intro p hp
    rw [List.mem_filter] at hp
    simpa using hp.2

theorem any_of_lookupSession_some {l : List (Nat × ApplicationSession)}
    {uid : Nat} {s : ApplicationSession}
    (h : lookupSession l uid = some s) :
    l.any (fun p => p.1 == uid) = true := by
  unfold lookupSession at h
  cases hf : l.find? (fun p => p.1 == uid) with
  | none => rw [hf] at h; simp at h
  | some p =>
    have hp := List.find?_some hf
    rw [List.any_eq_true]
    exact ⟨p, List.mem_of_find?_eq_some hf, hp⟩

/-- The in-memory bound the spec states as an invariant, as a decidable
check over the active-sessions cache. -/
def sessionsBounded (cog : CogState) : Bool :=
  cog.active_sessions.all
    (fun p => p.2.current_question ≤ p.2.questions.length)

theorem cancelApplication_noop (uid : Nat) (s : ApplicationSession)
    (cog : CogState) (store : Store) :
    cancelApplication uid s cog store = (cog, store) := by
  unfold cancelApplication
  rw [if_neg]
  simp [sqlBindOk, cancelUpdateParams, cancelUpdatePlaceholderCount]

theorem sessionsBounded_setSession (l : List (Nat × ApplicationSession))
    (uid : Nat) (s : ApplicationSession)
    (hb : l.all (fun p => p.2.current_question ≤ p.2.questions.length) = true)
    (hs : s.current_question ≤ s.questions.length) :
    (setSession l uid s).all
      (fun p => p.2.current_question ≤ p.2.questions.length) = true := by
  unfold setSession
  by_cases h : l.any (fun p => p.1 == uid)
  · rw [if_pos h, List.all_eq_true]
    intro p hp
    rw [List.mem_map] at hp
    obtain ⟨q, hq, rfl⟩ := hp
    by_cases hqu : (q.1 == uid) = true
    · rw [if_pos hqu]
      simpa using hs
    · rw [if_neg hqu]
      exact List.all_eq_true.mp hb q hq
  · rw [if_neg h, List.all_append, hb]
    simpa using hs

theorem sessionsBounded_removeSession_setSession
    (l : List (Nat × ApplicationSession)) (uid : Nat) (s : ApplicationSession)
    (hb : l.all (fun p => p.2.current_question ≤ p.2.questions.length) = true) :
    (removeSession (setSession l uid s) uid).all
      (fun p => p.2.current_question ≤ p.2.questions.length) = true := by
  rw [List.all_eq_true]
  intro p hp
  unfold removeSession at hp
  rw [List.mem_filter] at hp
  obtain ⟨hp1, hp2⟩ := hp
  unfold setSession at hp1
  by_cases h : l.any (fun q => q.1 == uid)
  · rw [if_pos h] at hp1
    rw [List.mem_map] at hp1
    obtain ⟨q, hq, rfl⟩ := hp1
    by_cases hqu : (q.1 == uid) = true
    · rw [if_pos hqu] at hp2
      simp at hp2
    · rw [if_neg hqu]
      exact List.all_eq_true.mp hb q hq
  · rw [if_neg h] at hp1
    rw [List.mem_append] at hp1
    rcases hp1 with hp1 | hp1
    · exact List.all_eq_true.mp hb p hp1
    · rw [List.mem_singleton] at hp1
      subst hp1
      simp at hp2

theorem sessionsBounded_processDm (cog : CogState) (store : Store)
    (msg : Message) (hb : sessionsBounded cog = true) :
    sessionsBounded (processDmResponse cog store msg).1 = true := by
  unfold processDmResponse
  cases hs : lookupSession cog.active_sessions msg.author_id with
  | none => exact hb
  | some s =>
    dsimp only
    by_cases hc : (pyLower (pyStrip msg.content) == CANCEL_KEYWORD) = true
    · rw [if_pos hc, cancelApplication_noop]
      exact hb
    · rw [if_neg hc]
      by_cases hf :
          (s.addAnswer (pyStrip msg.content)).isFinished = true
      · rw [if_neg (by simp [hf])]
        unfold completeApplication sessionsBounded
        exact sessionsBounded_removeSession_setSession
          cog.active_sessions msg.author_id _ hb
      · rw [if_pos (by simp [hf])]
        unfold sessionsBounded
        apply sessionsBounded_setSession _ _ _ hb
        have hf' : ¬ ((s.addAnswer (pyStrip msg.content)).questions.length ≤
            (s.addAnswer (pyStrip msg.content)).current_question) := by
          intro hle
          exact hf (by simpa [ApplicationSession.isFinished] using hle)
        exact Nat.le_of_lt (Nat.lt_of_not_le hf')

/-- C6: a freshly created session starts at question index 0 with the
role-configured question list; `add_answer` increments the index by exactly 1
(the only operation that changes it, so it never decreases); processing any DM
keeps every cached session's index bounded by its question count; and a
non-cancel answer either advances the cached session by exactly one or — when
the new index reaches the question count — removes the session, while a
cancel submission leaves the cached session as it was. -/
theorem session_index_invariant
    (cog : CogState) (store : Store) (msg : Message)
    (hb : sessionsBounded cog = true) :
    (∀ uid rt gid, (createApplicationSession uid rt gid).current_question = 0 ∧
      (createApplicationSession uid rt gid).questions = getRoleQuestions rt) ∧
    (∀ s a, (ApplicationSession.addAnswer s a).current_question =
      s.current_question + 1) ∧
    sessionsBounded (processDmResponse cog store msg).1 = true ∧
    (∀ s, lookupSession cog.active_sessions msg.author_id = some s →
      (pyLower (pyStrip msg.content) = CANCEL_KEYWORD →
        lookupSession (processDmResponse cog store msg).1.active_sessions
          msg.author_id = some s) ∧
      (¬ pyLower (pyStrip msg.content) = CANCEL_KEYWORD →
        lookupSession (processDmResponse cog store msg).1.active_sessions
          msg.author_id =
          (if s.questions.length ≤ s.current_question + 1 then none
            else some (s.addAnswer (pyStrip msg.content))))) := by
  refine ⟨fun uid rt gid => ⟨rfl, rfl⟩, fun s a => rfl,
    sessionsBounded_processDm cog store msg hb, ?_⟩
  intro s hs
  constructor
  · intro hc
    unfold processDmResponse
    rw [hs]
    dsimp only
    rw [if_pos (by simp [hc]), cancelApplication_noop]
    exact hs
  · intro hc
    unfold processDmResponse
    rw [hs]
    dsimp only
    rw [if_neg (by simp [hc])]
    by_cases hfin : s.questions.length ≤ s.current_question + 1
    · have hfb : (s.addAnswer (pyStrip msg.content)).isFinished = true := by
        simp [ApplicationSession.addAnswer, ApplicationSession.isFinished, hfin]
      rw [if_neg (by simp [hfb]), if_pos hfin]
      unfold completeApplication
      dsimp only
      exact lookupSession_removeSession_self _ _
    · have hfb : (s.addAnswer (pyStrip msg.content)).isFinished = false := by
        simp [ApplicationSession.addAnswer, ApplicationSession.isFinished, hfin]
      rw [if_pos (by simp [hfb]), if_neg hfin]
      dsimp only
      exact lookupSession_setSession_self _ _ _

def c6Session : ApplicationSession := createApplicationSession 7 "developer" 1

def c6Cog : CogState := ⟨[7], [(7, c6Session)]⟩

def c6Store : Store :=
  ⟨[⟨1, 7, 1, "developer", [], "pending", "2025-01-01 00:00:00"⟩],
   [⟨7, 1, "developer", 0, []⟩], [], [], [], 2⟩

def c6Msg : Message := ⟨7, false, true, "first answer"⟩

/-- Witness for C6: user 7 at index 0 of the 4-question developer flow
answers once; the cached session advances by exactly one and stays bounded. -/
theorem session_index_invariant_witness :
    sessionsBounded c6Cog = true ∧
    sessionsBounded (processDmResponse c6Cog c6Store c6Msg).1 = true ∧
    lookupSession (processDmResponse c6Cog c6Store c6Msg).1.active_sessions 7 =
      (if c6Session.questions.length ≤ c6Session.current_question + 1 then none
        else some (c6Session.addAnswer (pyStrip c6Msg.content))) :=
  have h := session_index_invariant c6Cog c6Store c6Msg (by decide)
  ⟨by decide, h.2.2.1, (h.2.2.2 c6Session (by decide)).2 (by decide)⟩

def c7Session : ApplicationSession := createApplicationSession 7 "developer" 1

def c7SessRow : SessionRow := ⟨7, 1, "developer", 0, []⟩

def c7Store : Store :=
  ⟨[⟨1, 7, 1, "developer", [], "pending", "2025-01-01 00:00:00"⟩],
   [c7SessRow], [], [], [], 2⟩

def c7Cog : CogState := ⟨[7], [(7, c7Session)]⟩

def c7Msgs : List Message :=
  [⟨7, false, true, "a1"⟩, ⟨7, false, true, "a2"⟩,
   ⟨7, false, true, "a3"⟩, ⟨7, false, true, "a4"⟩]

/-- Counterexample to C7 as stated: user 7 answers all 4 developer questions;
the application row does become `completed` with the 4 keyed answers and the
in-memory session is gone, but the persisted session row is still in the
store — `_complete_application` never deletes it — so "the Session is removed
from ... the store" is false. -/
theorem completion_keeps_stored_session_counterexample :
    (runMessages c7Cog c7Store c7Msgs).2.applications =
      [⟨1, 7, 1, "developer",
        [(questionKey 1, "a1"), (questionKey 2, "a2"),
         (questionKey 3, "a3"), (questionKey 4, "a4")],
        "completed", "2025-01-01 00:00:00"⟩] ∧
    lookupSession (runMessages c7Cog c7Store c7Msgs).1.active_sessions 7 =
      none ∧
    (runMessages c7Cog c7Store c7Msgs).2.sessions = [c7SessRow] ∧
    ¬ (runMessages c7Cog c7Store c7Msgs).2.sessions = [] := by decide

theorem validateRoleType_cases {rt : String} (h : validateRoleType rt = true) :
    rt = "game_server_owner" ∨ rt = "content_creator" ∨ rt = "developer" := by
  unfold validateRoleType at h
  rw [List.find?_isSome] at h
  obtain ⟨c, hc, hcrt⟩ := h
  unfold roleConfigs at hc
  fin_cases hc <;> simp only [beq_iff_eq] at hcrt <;> tauto

theorem getRoleQuestions_length {rt : String} (h : validateRoleType rt = true) :
    (getRoleQuestions rt).length = 4 := by
  rcases validateRoleType_cases h with h | h | h <;> subst h <;> decide

/-- C7 as amended: answering all 4 questions of any configured role type (each
role has exactly 4) marks the pending application row `completed` with exactly
4 answers, the answer to question i stored under key `question_i`, and removes
the session from the in-memory index; the persisted session row, however, is
left in the store (completion never deletes it). -/
theorem completion_records_answers_clears_memory_keeps_store_row
    (uid gid aid : Nat) (rt ts t1 t2 t3 t4 : String)
    (hrt : validateRoleType rt = true)
    (h1 : ¬ pyLower (pyStrip t1) = CANCEL_KEYWORD)
    (h2 : ¬ pyLower (pyStrip t2) = CANCEL_KEYWORD)
    (h3 : ¬ pyLower (pyStrip t3) = CANCEL_KEYWORD)
    (h4 : ¬ pyLower (pyStrip t4) = CANCEL_KEYWORD)
    (store : Store)
    (happs : store.applications = [⟨aid, uid, gid, rt, [], "pending", ts⟩])
    (cog : CogState)
    (hsess : cog.active_sessions =
      [(uid, createApplicationSession uid rt gid)]) :
    (runMessages cog store
      [⟨uid, false, true, t1⟩, ⟨uid, false, true, t2⟩,
       ⟨uid, false, true, t3⟩, ⟨uid, false, true, t4⟩]).2.applications =
      [⟨aid, uid, gid, rt,
        [(questionKey 1, pyStrip t1), (questionKey 2, pyStrip t2),
         (questionKey 3, pyStrip t3), (questionKey 4, pyStrip t4)],
        "completed", ts⟩] ∧
    lookupSession (runMessages cog store
      [⟨uid, false, true, t1⟩, ⟨uid, false, true, t2⟩,
       ⟨uid, false, true, t3⟩, ⟨uid, false, true, t4⟩]).1.active_sessions
      uid = none ∧
    (runMessages cog store
      [⟨uid, false, true, t1⟩, ⟨uid, false, true, t2⟩,
       ⟨uid, false, true, t3⟩, ⟨uid, false, true, t4⟩]).2.sessions =
      store.sessions := by
  have k12 : (questionKey 1 == questionKey 2) = false := by decide
  have k13 : (questionKey 1 == questionKey 3) = false := by decide
  have k14 : (questionKey 1 == questionKey 4) = false := by decide
  have k23 : (questionKey 2 == questionKey 3) = false := by decide
  have k24 : (questionKey 2 == questionKey 4) = false := by decide
  have k34 : (questionKey 3 == questionKey 4) = false := by decide
  cases cog with
  | mk pend act =>
    cases store with
    | mk apps sess rls rms ars nid =>
      simp only at happs hsess
      subst happs hsess
      rcases validateRoleType_cases hrt with hcase | hcase | hcase <;>
        subst hcase <;>
        simp [runMessages, processDmResponse, lookupSession, setSession,
          removeSession, completeApplication, ApplicationSession.addAnswer,
          ApplicationSession.isFinished, createApplicationSession,
          getRoleQuestions, roleConfigs, dictInsert,
          h1, h2, h3, h4, k12, k13, k14, k23, k24, k34]

/-- Witness for the amended C7 at the concrete 4-answer developer run. -/
theorem completion_records_answers_witness :
    (runMessages c7Cog c7Store c7Msgs).2.applications =
      [⟨1, 7, 1, "developer",
        [(questionKey 1, pyStrip "a1"), (questionKey 2, pyStrip "a2"),
         (questionKey 3, pyStrip "a3"), (questionKey 4, pyStrip "a4")],
        "completed", "2025-01-01 00:00:00"⟩] ∧
    lookupSession (runMessages c7Cog c7Store c7Msgs).1.active_sessions 7 =
      none ∧
    (runMessages c7Cog c7Store c7Msgs).2.sessions = c7Store.sessions :=
  completion_records_answers_clears_memory_keeps_store_row 7 1 1 "developer"
    "2025-01-01 00:00:00" "a1" "a2" "a3" "a4" (by decide) (by decide)
    (by decide) (by decide) (by decide) c7Store rfl c7Cog rfl
